import Mathlib

/-!
Shallow embedding of the process-session and console-loop core of the
graphical-gdb repository (src/src/gui.cpp), together with the stack-merge
algorithm of `GDBStackPanel::SetStackFrame`.  Byte strings are modelled as
`List Char`; the child process's pending stream data is modelled as the
trace of non-empty `readsome` results (one list element per chunk read).
-/

/-- `#define GDB_PROMPT "(gdb) "` (gui.cpp line 344). -/
def GDB_PROMPT : List Char := "(gdb) ".toList

/-- `#define GDB_QUIT "quit"` (gui.cpp line 346). -/
def GDB_QUIT : List Char := "quit".toList

/-- `#define GDB_PROGRAM_STATUS "info program"` (gui.cpp line 347). -/
def GDB_PROGRAM_STATUS : List Char := "info program".toList

/-- `#define GDB_STATUS_IDLE "GDB is idle."` (gui.cpp line 351). -/
def GDB_STATUS_IDLE : List Char := "GDB is idle.".toList

/-- `#define GDB_STATUS_RUNNING "GDB is currently running a program."` (gui.cpp line 352). -/
def GDB_STATUS_RUNNING : List Char := "GDB is currently running a program.".toList

/-- The literal `"not being run"` tested inside `GDB::is_running_program` (gui.cpp line 451). -/
def NOT_BEING_RUN : List Char := "not being run".toList

/-- `string_ends_with` (gui.cpp lines 359-363): size guard, then
`std::equal(ending.rbegin(), ending.rend(), str.rbegin())`, i.e. a prefix
comparison of the reversed strings over `ending.size()` characters. -/
def string_ends_with (str ending : List Char) : Bool :=
  if ending.length > str.length then false
  else ending.reverse.isPrefixOf str.reverse

/-- `string_contains` (gui.cpp lines 366-368): `str.find(value) != npos`. -/
def string_contains (str value : List Char) : Bool :=
  decide (value <:+: str)

/-- The transient result of one `GDB::read_until_prompt` call: the bytes
appended to the output buffer, the bytes appended to the error buffer, and
the `hit_prompt` flag when the drain loop exits. -/
structure OutputFrame where
  out : List Char
  err : List Char
  hitPrompt : Bool
deriving Repr, DecidableEq

/-- The body of the stdout inner read loop of `GDB::read_until_prompt`
(gui.cpp lines 404-416) for a single `readsome` chunk: test whether the
chunk ends with the prompt; when it does and `trim_prompt` is set, erase the
trailing `strlen(GDB_PROMPT)` characters before appending.  Returns the
bytes appended to the output buffer and whether `hit_prompt` was set. -/
def process_out_chunk (trim_prompt : Bool) (chunk : List Char) : List Char × Bool :=
  if string_ends_with chunk GDB_PROMPT then
    ((if trim_prompt then chunk.take (chunk.length - GDB_PROMPT.length) else chunk), true)
  else
    (chunk, false)

/-- The stdout inner `while (bufsz = process.out().readsome(...))` loop of
`GDB::read_until_prompt`: every available chunk is processed and appended
(the loop does not break when the prompt is seen; `hit_prompt` stays set). -/
def drain_out_chunks (trim_prompt : Bool) : List (List Char) → List Char × Bool
  | [] => ([], false)
  | chunk :: rest =>
    let first := process_out_chunk trim_prompt chunk
    let later := drain_out_chunks trim_prompt rest
    (first.1 ++ later.1, first.2 || later.2)

/-- `GDB::read_until_prompt` (gui.cpp lines 393-419) over a static trace:
`alive` is the value of `is_alive()` at loop entry, `errChunks` and
`outChunks` are the successive non-empty `readsome` results of the error and
output streams during the drain.  When `is_alive()` is false the
`while (is_alive() && !hit_prompt)` loop body never runs and the frame is
empty; otherwise every available error chunk is appended to the error
buffer and every output chunk is processed by the stdout inner loop. -/
def read_until_prompt (alive : Bool) (errChunks outChunks : List (List Char))
    (trim_prompt : Bool) : OutputFrame :=
  if alive then
    let outcome := drain_out_chunks trim_prompt outChunks
    { out := outcome.1, err := errChunks.flatten, hitPrompt := outcome.2 }
  else
    { out := [], err := [], hitPrompt := false }

/-- The observable state of a `GDB` object: the two `exited()` reports of
the process's output and error stream buffers (gui.cpp lines 422-427), the
lines written to the child's stdin so far, and the two booleans set by the
constructor (gui.cpp lines 371-373). -/
structure GDBState where
  outExited : Bool
  errExited : Bool
  sent : List (List Char)
  running_program_flag : Bool
  running_program : Bool
deriving Repr, DecidableEq

/-- `GDB::is_alive` (gui.cpp lines 422-427):
`exited = out.rdbuf()->exited() || err.rdbuf()->exited(); return !exited`. -/
def GDB.is_alive (s : GDBState) : Bool :=
  !(s.outExited || s.errExited)

/-- `GDB::GDB` (gui.cpp lines 371-373): a freshly opened session has
`running_program_flag(false), running_program(false)` and live streams. -/
def GDB.init : GDBState :=
  { outExited := false, errExited := false, sent := [],
    running_program_flag := false, running_program := false }

/-- `GDB::execute` (gui.cpp lines 381-387): when `is_alive()` holds and the
line pointer is non-null, the line is written to the process and
`running_program_flag` is set; otherwise nothing happens.  A null
`const char *` is modelled as `none`. -/
def GDB.execute (s : GDBState) (line : Option (List Char)) : GDBState :=
  match line with
  | none => s
  | some l =>
    if GDB.is_alive s then
      { s with sent := s.sent ++ [l], running_program_flag := true }
    else
      s

/-- `GDB::is_running_program` (gui.cpp lines 445-458).  When the dirty flag
is set, `get_execution_output(GDB_PROGRAM_STATUS)` writes the status-query
command to the process and drains its reply (the reply text is the oracle
argument `statusOut`), `running_program` is recomputed as the absence of
`"not being run"` in the reply, and the flag is cleared.  Otherwise the
cached value is returned untouched.  Result: the returned boolean, the new
state, and whether a status-query command was issued to the child. -/
def GDB.is_running_program (s : GDBState) (statusOut : List Char) :
    Bool × GDBState × Bool :=
  if s.running_program_flag then
    let result := !(string_contains statusOut NOT_BEING_RUN)
    (result,
     { s with sent := s.sent ++ [GDB_PROGRAM_STATUS],
              running_program := result, running_program_flag := false },
     true)
  else
    (s.running_program, s, false)

/-- `update_console_and_gui` (gui.cpp lines 542-559): drain the session's
output (to the console, with the prompt trimmed), then build a status-bar
event whose string is `GDB_STATUS_RUNNING` when `gdb.is_running_program()`
and `GDB_STATUS_IDLE` otherwise; the event is queued only when the
application's top window is non-null (`if (window)`), otherwise it is
dropped.  `errChunks`/`outChunks` are the drained stream chunks and
`statusOut` the reply an `is_running_program` recomputation would read.
Result: the new session state, the drained frame, and the queued event's
string (`none` when no event was queued). -/
def update_console_and_gui (s : GDBState) (errChunks outChunks : List (List Char))
    (statusOut : List Char) (windowPresent : Bool) :
    GDBState × OutputFrame × Option (List Char) :=
  let frame := read_until_prompt (GDB.is_alive s) errChunks outChunks true
  let status := GDB.is_running_program s statusOut
  (status.2.1, frame,
   if windowPresent then
     some (if status.1 then GDB_STATUS_RUNNING else GDB_STATUS_IDLE)
   else
     none)

/-- The environment of one `open_console` run: the stream chunks each drain
observes (indexed by how many drains happened before it), the status-query
reply each recomputation reads, whether the GUI top window exists, and the
child-process reaction `killer`: `killer l = true` means the child exits
after receiving line `l` (so `exited()` becomes true on both stream
buffers before the next read). -/
structure ConsoleEnv where
  errs : Nat → List (List Char)
  outs : Nat → List (List Char)
  statusOut : Nat → List Char
  windowPresent : Bool
  killer : List Char → Bool

/-- The child process dying: both stream buffers now report `exited()`. -/
def killProc (s : GDBState) : GDBState :=
  { s with outExited := true, errExited := true }

/-- One `gdb.execute(line)` as seen from `open_console`, composed with the
child's reaction: if the session was alive and the child exits on this
line, both stream buffers subsequently report `exited()`. -/
def consoleExecute (killer : List Char → Bool) (s : GDBState) (l : List Char) : GDBState :=
  let s1 := GDB.execute s (some l)
  if GDB.is_alive s && killer l then killProc s1 else s1

/-- The `while (gdb.is_alive())` loop of `open_console` (gui.cpp lines
576-607) over the finite list of lines `readline` will produce before
end-of-input.  Each iteration: if the session is dead the loop exits; on
end-of-input (`inputs = []`, null `readline` result) the loop executes
`GDB_QUIT`, performs one more `update_console_and_gui`, and breaks; a
non-empty line is executed and followed by one `update_console_and_gui`;
an empty line does neither.  `drains` counts `update_console_and_gui`
calls made so far (it indexes the environment's stream traces).  Returns
the final state, the list of lines the loop passed to `gdb.execute`, and
the number of `update_console_and_gui` calls the loop made. -/
def runConsole (env : ConsoleEnv) :
    GDBState → List (List Char) → Nat → GDBState × List (List Char) × Nat
  | s, [], drains =>
    if GDB.is_alive s then
      let s1 := consoleExecute env.killer s GDB_QUIT
      let s2 := (update_console_and_gui s1 (env.errs drains) (env.outs drains)
        (env.statusOut drains) env.windowPresent).1
      (s2, [GDB_QUIT], 1)
    else
      (s, [], 0)
  | s, line :: rest, drains =>
    if GDB.is_alive s then
      if line.length != 0 then
        let s1 := consoleExecute env.killer s line
        let s2 := (update_console_and_gui s1 (env.errs drains) (env.outs drains)
          (env.statusOut drains) env.windowPresent).1
        let later := runConsole env s2 rest (drains + 1)
        (later.1, line :: later.2.1, later.2.2 + 1)
      else
        runConsole env s rest drains
    else
      (s, [], 0)

/-- The fields of `StackFrame` used by `GDBStackPanel::SetStackFrame`:
`stack_pointer`, `frame_pointer`, and the `memory` array with its
`memory_length` (here `memory.length`).  A null `StackFrame *` or null
`memory` is modelled as `none` at the call site. -/
structure StackFrame where
  stack_pointer : Int
  frame_pointer : Int
  memory : List Int
deriving Repr, DecidableEq

/-- The data part of `GDBStackPanel::SetStackFrame` (gui.cpp lines
208-285), ignoring the grid rendering: the stored image is
`none` (null `stack_global`) or `some (stack_top, values)` with
`stack_size = values.length`.  A null/empty frame clears the image; a frame
merged into an empty image becomes the image verbatim; otherwise the image
becomes the union range `[min, max)` where each byte takes the frame's
value inside the frame's range, the old value inside the old range only,
and zero elsewhere. -/
def setStackFrame (old : Option (Int × List Int)) (frame : Option StackFrame) :
    Option (Int × List Int) :=
  match frame with
  | none => none
  | some f =>
    match old with
    | none => some (f.stack_pointer, f.memory)
    | some (stack_top, vals) =>
      let stack_frame_top : Int := f.stack_pointer
      let stack_frame_bottom : Int := f.stack_pointer + f.memory.length
      let stack_bottom : Int := stack_top + vals.length
      let new_stack_top : Int :=
        if stack_frame_top < stack_top then stack_frame_top else stack_top
      let new_stack_bottom : Int :=
        if stack_frame_bottom > stack_bottom then stack_frame_bottom else stack_bottom
      let new_stack_size : Nat := (new_stack_bottom - new_stack_top).toNat
      let new_stack : List Int :=
        (List.range new_stack_size).map (fun (index : Nat) =>
          let address : Int := new_stack_top + index
          if stack_frame_top ≤ address ∧ address < stack_frame_bottom then
            f.memory.getD (address - stack_frame_top).toNat 0
          else if stack_top ≤ address ∧ address < stack_bottom then
            vals.getD (address - stack_top).toNat 0
          else
            0)
      some (new_stack_top, new_stack)

/-- Observation: the base address (`stack_top`) of a stored stack image;
0 for the empty image. -/
def imageTop : Option (Int × List Int) → Int
  | none => 0
  | some (top, _) => top

/-- Observation: the `stack_size` of a stored stack image. -/
def imageSize : Option (Int × List Int) → Nat
  | none => 0
  | some (_, vals) => vals.length

/-- Observation: the byte stored at address `addr` of a stack image
(meaningful for `imageTop ≤ addr < imageTop + imageSize`). -/
def imageVal (img : Option (Int × List Int)) (addr : Int) : Int :=
  match img with
  | none => 0
  | some (top, vals) => vals.getD (addr - top).toNat 0

/-- C10: calling `execute` with a null command pointer is a no-op in every
session state (so in particular when the session is alive): nothing is
written to the child, the dirty flag is untouched, the state is unchanged. -/
theorem execute_null_noop (s : GDBState) : GDB.execute s none = s := rfl

/-- C5: on a freshly opened session, before any `execute`,
`is_running_program` returns the cached `false`, issues no status-query
command, and leaves the state unchanged, whatever the child would reply. -/
theorem fresh_session_not_running (statusOut : List Char) :
    GDB.is_running_program GDB.init statusOut = (false, GDB.init, false) := rfl

/-- C3 counterexample: in a state where only the stdout channel reports the
process exited (the stderr channel does not), `is_alive` returns `false`,
contradicting the claim that it stays `true` until both channels report
exit. -/
theorem is_alive_single_exit_counterexample :
    { GDB.init with outExited := true }.errExited = false ∧
    GDB.is_alive { GDB.init with outExited := true } = false := by
  constructor <;> rfl

/-- C3 amended: `is_alive` returns `true` exactly when neither output
channel reports the process exited; if either of the two channels reports
exit, it returns `false`. -/
theorem is_alive_iff_neither_exited (s : GDBState) :
    GDB.is_alive s = (!s.outExited && !s.errExited) := by
  simp [GDB.is_alive]

/-- C7: with the session not alive, `execute` writes nothing and leaves the
state unchanged, and `read_until_prompt` returns immediately with an empty
frame: no bytes in either accumulator and the prompt flag unset. -/
theorem closed_session_noop (s : GDBState) (line : Option (List Char))
    (errChunks outChunks : List (List Char)) (trim_prompt : Bool)
    (h : GDB.is_alive s = false) :
    GDB.execute s line = s ∧
    read_until_prompt (GDB.is_alive s) errChunks outChunks trim_prompt =
      { out := [], err := [], hitPrompt := false } := by
  constructor
  · cases line with
    | none => rfl
    | some l => simp [GDB.execute, h]
  · rw [h]
    rfl

/-- Witness for C7 at a concrete closed session. -/
theorem closed_session_noop_witness :
    GDB.is_alive { GDB.init with outExited := true, errExited := true } = false ∧
    (GDB.execute { GDB.init with outExited := true, errExited := true } (some GDB_QUIT) =
      { GDB.init with outExited := true, errExited := true } ∧
     read_until_prompt
       (GDB.is_alive { GDB.init with outExited := true, errExited := true })
       [] [GDB_PROMPT] true =
      { out := [], err := [], hitPrompt := false }) :=
  ⟨by decide,
   closed_session_noop { GDB.init with outExited := true, errExited := true }
     (some GDB_QUIT) [] [GDB_PROMPT] true (by decide)⟩

/-- C2: two read chunks whose concatenation ends with the prompt literal
but where the literal straddles the chunk boundary: neither chunk ends with
the prompt, so the drain's prompt flag stays unset and the drain does not
terminate via prompt detection (the chunks are still appended verbatim). -/
theorem prompt_straddle_not_detected :
    string_ends_with ("(gd".toList ++ "b) ".toList) GDB_PROMPT = true ∧
    string_ends_with "(gd".toList GDB_PROMPT = false ∧
    string_ends_with "b) ".toList GDB_PROMPT = false ∧
    (read_until_prompt true [] ["(gd".toList, "b) ".toList] true).hitPrompt = false ∧
    (read_until_prompt true [] ["(gd".toList, "b) ".toList] true).out =
      "(gd".toList ++ "b) ".toList := by
  refine ⟨by decide, by decide, by decide, rfl, rfl⟩

/-- C6: on an alive session, every `execute` of a (non-null) command sets
the dirty flag; one `is_running_program` call leaves the flag cleared, and
until the next `execute` any further `is_running_program` call returns the
same cached boolean, does not change the state, and issues no status-query
command to the child. -/
theorem running_status_lazy (s : GDBState) (l statusOut statusOut2 : List Char)
    (halive : GDB.is_alive s = true) :
    (GDB.execute s (some l)).running_program_flag = true ∧
    (GDB.is_running_program s statusOut).2.1.running_program_flag = false ∧
    GDB.is_running_program (GDB.is_running_program s statusOut).2.1 statusOut2 =
      ((GDB.is_running_program s statusOut).1,
       (GDB.is_running_program s statusOut).2.1, false) := by
  refine ⟨by simp [GDB.execute, halive], ?_, ?_⟩ <;>
    cases h : s.running_program_flag <;>
      simp [GDB.is_running_program, h]

/-- Witness for C6 on a fresh session and a concrete command. -/
theorem running_status_lazy_witness :
    GDB.is_alive GDB.init = true ∧
    ((GDB.execute GDB.init (some GDB_QUIT)).running_program_flag = true ∧
     (GDB.is_running_program GDB.init []).2.1.running_program_flag = false ∧
     GDB.is_running_program (GDB.is_running_program GDB.init []).2.1 [] =
       ((GDB.is_running_program GDB.init []).1,
        (GDB.is_running_program GDB.init []).2.1, false)) :=
  ⟨by decide, running_status_lazy GDB.init GDB_QUIT [] [] (by decide)⟩

/-- C9 counterexample: one execute+drain cycle performed before the GUI's
top window exists (`wxTheApp->GetTopWindow()` null) queues no status
notification at all, although `is_running_program()` is false and the claim
demands an Idle notification on every cycle. -/
theorem status_publish_no_window_counterexample :
    (GDB.is_running_program GDB.init []).1 = false ∧
    (update_console_and_gui GDB.init [] [] [] false).2.2 ≠
      some (if (GDB.is_running_program GDB.init []).1 then GDB_STATUS_RUNNING
            else GDB_STATUS_IDLE) ∧
    (update_console_and_gui GDB.init [] [] [] false).2.2 = none := by
  refine ⟨rfl, ?_, rfl⟩
  intro h
  simp [update_console_and_gui] at h

/-- C9 amended: after an execute+drain cycle, whenever the GUI top window
exists, `update_console_and_gui` queues exactly one status notification,
carrying `GDB_STATUS_RUNNING` if `is_running_program()` is true and
`GDB_STATUS_IDLE` otherwise; when the top window does not yet exist the
event is dropped instead of queued. -/
theorem status_publish_with_window (s : GDBState)
    (errChunks outChunks : List (List Char)) (statusOut : List Char) :
    (update_console_and_gui s errChunks outChunks statusOut true).2.2 =
      some (if (GDB.is_running_program s statusOut).1 then GDB_STATUS_RUNNING
            else GDB_STATUS_IDLE) ∧
    (update_console_and_gui s errChunks outChunks statusOut false).2.2 = none :=
  ⟨rfl, rfl⟩

/-- Helper: an `is_running_program` recomputation never touches the two
`exited()` reports of the stream buffers. -/
theorem is_running_program_preserves_exited (s : GDBState) (statusOut : List Char) :
    (GDB.is_running_program s statusOut).2.1.outExited = s.outExited ∧
    (GDB.is_running_program s statusOut).2.1.errExited = s.errExited := by
  cases h : s.running_program_flag <;> simp [GDB.is_running_program, h]

/-- C8: if the console loop reaches end-of-input with no commands issued
(on an alive session whose child exits upon receiving `"quit"`), it
executes exactly one `"quit"` command, performs exactly one more
execute+drain cycle, terminates, and afterwards `is_alive()` is false. -/
theorem console_eof_executes_quit (env : ConsoleEnv) (s : GDBState)
    (halive : GDB.is_alive s = true) (hkill : env.killer GDB_QUIT = true) :
    (runConsole env s [] 0).2.1 = [GDB_QUIT] ∧
    (runConsole env s [] 0).2.2 = 1 ∧
    GDB.is_alive (runConsole env s [] 0).1 = false := by
  refine ⟨by simp [runConsole, halive], by simp [runConsole, halive], ?_⟩
  have hexec : consoleExecute env.killer s GDB_QUIT =
      killProc (GDB.execute s (some GDB_QUIT)) := by
    simp [consoleExecute, halive, hkill]
  simp only [runConsole, halive, if_true]
  rw [hexec]
  simp [update_console_and_gui, GDB.is_alive,
    (is_running_program_preserves_exited _ _).1, killProc]

/-- Witness for C8: a fresh session, empty input, a child that exits on
`"quit"`. -/
theorem console_eof_executes_quit_witness :
    (runConsole ⟨fun _ => [], fun _ => [], fun _ => [], true,
        fun l => decide (l = GDB_QUIT)⟩ GDB.init [] 0).2.1 = [GDB_QUIT] ∧
    (runConsole ⟨fun _ => [], fun _ => [], fun _ => [], true,
        fun l => decide (l = GDB_QUIT)⟩ GDB.init [] 0).2.2 = 1 ∧
    GDB.is_alive (runConsole ⟨fun _ => [], fun _ => [], fun _ => [], true,
        fun l => decide (l = GDB_QUIT)⟩ GDB.init [] 0).1 = false :=
  console_eof_executes_quit
    ⟨fun _ => [], fun _ => [], fun _ => [], true, fun l => decide (l = GDB_QUIT)⟩
    GDB.init (by decide) (by decide)

/-- Helper: a string obtained by appending `ending` always ends with
`ending`. -/
theorem string_ends_with_append (a e : List Char) :
    string_ends_with (a ++ e) e = true := by
  unfold string_ends_with
  rw [if_neg (by simp only [List.length_append, gt_iff_lt, not_lt]; omega)]
  rw [List.reverse_append]
  exact List.isPrefixOf_iff_prefix.2 (List.prefix_append _ _)

/-- Helper: a chunk that ends with the prompt is appended with the trailing
prompt erased exactly when trimming is requested, and sets the flag. -/
theorem process_out_chunk_prompt (trim_prompt : Bool) (body : List Char) :
    process_out_chunk trim_prompt (body ++ GDB_PROMPT) =
      ((if trim_prompt then body else body ++ GDB_PROMPT), true) := by
  unfold process_out_chunk
  rw [if_pos (string_ends_with_append body GDB_PROMPT)]
  congr 1
  cases trim_prompt with
  | false => rfl
  | true =>
    simp only [if_true]
    have hlen : (body ++ GDB_PROMPT).length - GDB_PROMPT.length = body.length := by
      simp only [List.length_append]; omega
    rw [hlen, List.take_left]

/-- Helper: chunks that do not end with the prompt are drained verbatim and
leave the flag unset. -/
theorem drain_out_chunks_no_prompt (trim_prompt : Bool) (chunks : List (List Char))
    (h : ∀ c ∈ chunks, string_ends_with c GDB_PROMPT = false) :
    drain_out_chunks trim_prompt chunks = (chunks.flatten, false) := by
  induction chunks with
  | nil => rfl
  | cons c rest ih =>
    have hc : string_ends_with c GDB_PROMPT = false := h c (List.mem_cons_self c rest)
    have hrest := ih (fun d hd => h d (List.mem_cons_of_mem c hd))
    simp [drain_out_chunks, process_out_chunk, hc, hrest]

/-- Helper: the stdout inner loop distributes over chunk-list append. -/
theorem drain_out_chunks_append (trim_prompt : Bool) (xs ys : List (List Char)) :
    drain_out_chunks trim_prompt (xs ++ ys) =
      ((drain_out_chunks trim_prompt xs).1 ++ (drain_out_chunks trim_prompt ys).1,
       (drain_out_chunks trim_prompt xs).2 || (drain_out_chunks trim_prompt ys).2) := by
  induction xs with
  | nil => simp [drain_out_chunks]
  | cons c rest ih => simp [drain_out_chunks, ih, Bool.or_assoc]

/-- C1: when the child's reply to a command is a sequence of read chunks
none of which ends with the prompt, followed by a final chunk that is the
remaining reply bytes with the prompt appended, the drain detects the
prompt, and the frame's stdout content is exactly the bytes the child
wrote before the prompt — with the trailing prompt bytes removed when
`trim_prompt` is true and retained when it is false. -/
theorem drain_returns_bytes_before_prompt (errChunks pre : List (List Char))
    (body : List Char) (trim_prompt : Bool)
    (hpre : ∀ c ∈ pre, string_ends_with c GDB_PROMPT = false) :
    (read_until_prompt true errChunks (pre ++ [body ++ GDB_PROMPT])
        trim_prompt).hitPrompt = true ∧
    (read_until_prompt true errChunks (pre ++ [body ++ GDB_PROMPT]) trim_prompt).out =
      (if trim_prompt then pre.flatten ++ body
       else pre.flatten ++ body ++ GDB_PROMPT) := by
  have hdrain : drain_out_chunks trim_prompt (pre ++ [body ++ GDB_PROMPT]) =
      (pre.flatten ++ (if trim_prompt then body else body ++ GDB_PROMPT), true) := by
    rw [drain_out_chunks_append, drain_out_chunks_no_prompt trim_prompt pre hpre]
    simp [drain_out_chunks, process_out_chunk_prompt]
  constructor
  · show (drain_out_chunks trim_prompt (pre ++ [body ++ GDB_PROMPT])).2 = true
    rw [hdrain]
  · show (drain_out_chunks trim_prompt (pre ++ [body ++ GDB_PROMPT])).1 = _
    rw [hdrain]
    cases trim_prompt <;> simp

/-- Witness for C1: reply chunks `["hel", "lo\n" ++ prompt]` with and
without trimming. -/
theorem drain_returns_bytes_before_prompt_witness :
    (∀ c ∈ ["hel".toList], string_ends_with c GDB_PROMPT = false) ∧
    ((read_until_prompt true [] (["hel".toList] ++ ["lo\n".toList ++ GDB_PROMPT])
        true).hitPrompt = true ∧
     (read_until_prompt true [] (["hel".toList] ++ ["lo\n".toList ++ GDB_PROMPT])
        true).out =
       (if true then ["hel".toList].flatten ++ "lo\n".toList
        else ["hel".toList].flatten ++ "lo\n".toList ++ GDB_PROMPT)) :=
  ⟨by decide,
   drain_returns_bytes_before_prompt [] ["hel".toList] "lo\n".toList true (by decide)⟩

/-- Helper: the merge branch of `SetStackFrame` written with `min`/`max`
instead of the source's conditionals. -/
theorem setStackFrame_some_some (stack_top : Int) (vals : List Int) (f : StackFrame) :
    setStackFrame (some (stack_top, vals)) (some f) =
      some (min f.stack_pointer stack_top,
        (List.range ((max (f.stack_pointer + ↑f.memory.length) (stack_top + ↑vals.length) -
            min f.stack_pointer stack_top).toNat)).map
          (fun (index : Nat) =>
            if f.stack_pointer ≤ min f.stack_pointer stack_top + ↑index ∧
                min f.stack_pointer stack_top + ↑index <
                  f.stack_pointer + ↑f.memory.length then
              f.memory.getD (min f.stack_pointer stack_top + ↑index - f.stack_pointer).toNat 0
            else if stack_top ≤ min f.stack_pointer stack_top + ↑index ∧
                min f.stack_pointer stack_top + ↑index < stack_top + ↑vals.length then
              vals.getD (min f.stack_pointer stack_top + ↑index - stack_top).toNat 0
            else 0)) := by
  have hmin : (if f.stack_pointer < stack_top then f.stack_pointer else stack_top) =
      min f.stack_pointer stack_top := by split <;> omega
  have hmax : (if f.stack_pointer + ↑f.memory.length > stack_top + ↑vals.length
      then f.stack_pointer + ↑f.memory.length else stack_top + ↑vals.length) =
      max (f.stack_pointer + ↑f.memory.length) (stack_top + ↑vals.length) := by
    split <;> omega
  simp only [setStackFrame]
  rw [hmin, hmax]

/-- Helper: indexing the list built by mapping over `List.range`. -/
theorem getD_map_range (n : Nat) (g : Nat → Int) (i : Nat) (hi : i < n) :
    ((List.range n).map g).getD i 0 = g i := by
  rw [List.getD_eq_getElem _ 0 (by simpa using hi)]
  simp

/-- Helper: the pointwise value of the merged stack image at any address of
the union range, phrased on addresses rather than loop indices. -/
theorem stack_merge_get (stack_top : Int) (vals : List Int) (f : StackFrame) (addr : Int)
    (h1 : min f.stack_pointer stack_top ≤ addr)
    (h2 : addr < max (f.stack_pointer + ↑f.memory.length) (stack_top + ↑vals.length)) :
    imageVal (setStackFrame (some (stack_top, vals)) (some f)) addr =
      (if f.stack_pointer ≤ addr ∧ addr < f.stack_pointer + ↑f.memory.length then
        f.memory.getD (addr - f.stack_pointer).toNat 0
      else if stack_top ≤ addr ∧ addr < stack_top + ↑vals.length then
        vals.getD (addr - stack_top).toNat 0
      else 0) := by
  rw [setStackFrame_some_some]
  simp only [imageVal]
  have hi : (addr - min f.stack_pointer stack_top).toNat <
      (max (f.stack_pointer + ↑f.memory.length) (stack_top + ↑vals.length) -
        min f.stack_pointer stack_top).toNat := by omega
  rw [getD_map_range _ _ _ hi]
  have haddr : min f.stack_pointer stack_top +
      ((addr - min f.stack_pointer stack_top).toNat : Int) = addr := by omega
  rw [haddr]

/-- C4: merging a frame `[frameTop, frameTop+frameSize)` into an existing
image `[oldTop, oldTop+oldSize)` stores the union range
`[min frameTop oldTop, max (frameTop+frameSize) (oldTop+oldSize))` where
bytes in the frame's range take the frame's value, bytes only in the old
range keep their prior value, and bytes in neither range are zero; in
particular merging `A = [10,20)` with values `1..10` into an empty image
and then `B = [15,25)` with values `100..109` yields `[10,25)` with `A`'s
values on `[10,15)` and `B`'s values on `[15,25)`. -/
theorem stack_merge_union :
    (∀ (stack_top : Int) (vals : List Int) (f : StackFrame),
      imageTop (setStackFrame (some (stack_top, vals)) (some f)) =
        min f.stack_pointer stack_top ∧
      imageSize (setStackFrame (some (stack_top, vals)) (some f)) =
        (max (f.stack_pointer + ↑f.memory.length) (stack_top + ↑vals.length) -
          min f.stack_pointer stack_top).toNat ∧
      ∀ addr : Int,
        (f.stack_pointer ≤ addr → addr < f.stack_pointer + ↑f.memory.length →
          imageVal (setStackFrame (some (stack_top, vals)) (some f)) addr =
            f.memory.getD (addr - f.stack_pointer).toNat 0) ∧
        (¬ (f.stack_pointer ≤ addr ∧ addr < f.stack_pointer + ↑f.memory.length) →
          stack_top ≤ addr → addr < stack_top + ↑vals.length →
          imageVal (setStackFrame (some (stack_top, vals)) (some f)) addr =
            vals.getD (addr - stack_top).toNat 0) ∧
        (¬ (f.stack_pointer ≤ addr ∧ addr < f.stack_pointer + ↑f.memory.length) →
          ¬ (stack_top ≤ addr ∧ addr < stack_top + ↑vals.length) →
          min f.stack_pointer stack_top ≤ addr →
          addr < max (f.stack_pointer + ↑f.memory.length) (stack_top + ↑vals.length) →
          imageVal (setStackFrame (some (stack_top, vals)) (some f)) addr = 0)) ∧
    setStackFrame (setStackFrame none (some ⟨10, 0, [1,2,3,4,5,6,7,8,9,10]⟩))
        (some ⟨15, 0, [100,101,102,103,104,105,106,107,108,109]⟩) =
      some (10, [1,2,3,4,5,100,101,102,103,104,105,106,107,108,109]) := by
  constructor
  · intro stack_top vals f
    refine ⟨?_, ?_, ?_⟩
    · rw [setStackFrame_some_some]; rfl
    · rw [setStackFrame_some_some]
      simp [imageSize]
    · intro addr
      refine ⟨?_, ?_, ?_⟩
      · intro ha hb
        rw [stack_merge_get _ _ _ _ (by omega) (by omega), if_pos ⟨ha, hb⟩]
      · intro hn ha hb
        rw [stack_merge_get _ _ _ _ (by omega) (by omega), if_neg hn, if_pos ⟨ha, hb⟩]
      · intro hn1 hn2 h1 h2
        rw [stack_merge_get _ _ _ _ h1 h2, if_neg hn1, if_neg hn2]
  · decide

/-- Witness for C4: in the `A` then `B` merge, address 12 lies outside
`B = [15,25)` but inside `A = [10,20)`, so it keeps `A`'s value. -/
theorem stack_merge_union_witness :
    imageVal (setStackFrame (some (10, [1,2,3,4,5,6,7,8,9,10]))
        (some ⟨15, 0, [100,101,102,103,104,105,106,107,108,109]⟩)) 12 =
      [1,2,3,4,5,6,7,8,9,10].getD ((12 : Int) - 10).toNat 0 :=
  ((stack_merge_union.1 10 [1,2,3,4,5,6,7,8,9,10]
      ⟨15, 0, [100,101,102,103,104,105,106,107,108,109]⟩).2.2 12).2.1
    (by decide) (by decide) (by decide)
